import Mathlib

/-!
Shallow embedding of the token-signing, token-caching, catalog-request and
search-cache core of the `am-mcp` repository (src/utils/auth.py,
src/utils/musickit.py, src/handlers/search.py), with theorems settling the
spec claims about it.

Conventions of the embedding:
* Python `bytes` values are `List Nat` (each element a byte value < 256).
* Python timestamps (`datetime` / `time.time()`) are exact rationals `ℚ`;
  `int(x)` on a timestamp is `pyInt` below (truncation toward zero).
* I/O performed by the code (reading the key file, invoking the signing
  subprocess, performing an HTTP attempt, drawing a random jitter, fetching
  a token) is passed in as explicit oracle values/functions; the functions
  return, besides the Python return value or raised error, a trace of the
  effects (sleeps performed, tokens attached, whether the temp file was
  deleted) so that effectful properties become statements about the trace.
* A raised `ToolError` is the `.error` branch of an `Except`; a raised
  non-`ToolError` Python exception (e.g. `IndexError`) is modelled by a
  distinguished error constructor, since several claims turn on whether a
  failure is classified or not.
-/

/-- Python values as they appear in JSON-decoded MusicKit payloads and in
`ToolError.hint` (Python annotates the hint as `Optional[str]` but passes
arbitrary decoded values in `_raise_for_status`). -/
inductive PyVal where
  | none
  | bool (b : Bool)
  | int (n : ℤ)
  | str (s : String)
  | list (items : List PyVal)
  | dict (entries : List (String × PyVal))

/-- `utils/exceptions.py ToolError(code, message, hint)`; an omitted or
`None` hint is `PyVal.none`. -/
structure ToolErr where
  code : String
  message : String
  hint : PyVal := PyVal.none

/-- `utils/auth.py MusicKitConfig`. -/
structure MusicKitConfig where
  team_id : String
  key_id : String
  private_key_path : String
  storefront : String

/-- `MAX_TOKEN_TTL_SECONDS = 60 * 60 * 24 * 180` (auth.py line 22). -/
def MAX_TOKEN_TTL_SECONDS : ℤ := 60 * 60 * 24 * 180

/-- Python `int()` applied to a float/rational: truncation toward zero. -/
def pyInt (q : ℚ) : ℤ := if 0 ≤ q then ⌊q⌋ else ⌈q⌉

/-- The JWT claims dict built in `_mint_developer_token` (auth.py lines
117-122): `iss`, `iat = int(now.timestamp())`,
`exp = int((now + ttl).timestamp())`, `aud`. -/
structure Claims where
  iss : String
  iat : ℤ
  exp : ℤ
  aud : String

/-- The JWT header dict built in `_mint_developer_token` (auth.py line 124). -/
structure JwtHeader where
  alg : String
  kid : String

/-- Claims construction of `_mint_developer_token` (auth.py lines 114-122). -/
def mintClaims (config : MusicKitConfig) (ttl_seconds : ℤ) (now : ℚ) : Claims :=
  { iss := config.team_id
    iat := pyInt now
    exp := pyInt (now + (ttl_seconds : ℚ))
    aud := "https://music.apple.com" }

/-- Outcome of `_encode_jwt_es256`: a token string, a raised `ToolError`
(re-raised unchanged at auth.py lines 128-129), or any other exception
(wrapped at lines 130-135). -/
inductive EncodeOutcome where
  | ok (token : String)
  | toolError (e : ToolErr)
  | otherException

/-- The `ToolError` raised for `ttl_seconds <= 0` (auth.py lines 100-104). -/
def invalidTokenTtlError : ToolErr :=
  { code := "invalid_token_ttl"
    message := "Developer token TTL must be a positive integer."
    hint := PyVal.str "Provide a TTL value greater than zero seconds." }

/-- The `ToolError` raised for `ttl_seconds > MAX_TOKEN_TTL_SECONDS`
(auth.py lines 107-111). -/
def ttlTooLongError : ToolErr :=
  { code := "ttl_too_long"
    message := "Developer token TTL exceeds the 6 month maximum."
    hint := PyVal.str "Use a shorter TTL and rotate tokens regularly." }

/-- The `ToolError` wrapping an unexpected encoding failure (auth.py lines
131-135). -/
def tokenGenerationFailedError : ToolErr :=
  { code := "token_generation_failed"
    message := "Failed to generate a MusicKit developer token."
    hint := PyVal.str "Confirm the private key contents and permissions." }

/-- `_mint_developer_token(config, ttl_seconds)` (auth.py lines 95-137).
`now` is the value of `datetime.now(timezone.utc)`; `readKey` is the result
of `_read_private_key(config.private_key_path)` (an I/O oracle: `.error`
is the `ToolError` that call would raise); `encode` is the behaviour of
`_encode_jwt_es256(payload, headers, private_key)`. Returns
`(token, expires_at)` on success. -/
def mintDeveloperToken (config : MusicKitConfig) (ttl_seconds : ℤ) (now : ℚ)
    (readKey : Except ToolErr String)
    (encode : Claims → JwtHeader → String → EncodeOutcome) :
    Except ToolErr (String × ℚ) :=
  if ttl_seconds ≤ 0 then
    .error invalidTokenTtlError
  else if MAX_TOKEN_TTL_SECONDS < ttl_seconds then
    .error ttlTooLongError
  else
    match readKey with
    | .error e => .error e
    | .ok private_key =>
      let expires_at : ℚ := now + (ttl_seconds : ℚ)
      let payload := mintClaims config ttl_seconds now
      let headers : JwtHeader := { alg := "ES256", kid := config.key_id }
      match encode payload headers private_key with
      | .ok token => .ok (token, expires_at)
      | .toolError e => .error e
      | .otherException => .error tokenGenerationFailedError

/-- Cache key computed by `generate_developer_token` (auth.py line 151). -/
def cacheKey (config : MusicKitConfig) : String :=
  config.team_id ++ ":" ++ config.key_id ++ ":" ++ config.private_key_path

/-- `_TOKEN_CACHE`: maps cache keys to `(token, expires_at)` pairs. -/
def TokenCache : Type := String → Option (String × ℚ)

/-- `generate_developer_token(config, ttl_seconds, refresh_leeway)`
(auth.py lines 144-166), with the process-wide `_TOKEN_CACHE` threaded
explicitly: returns the Python result together with the cache state after
the call.  The cached token is returned when
`expires_at - timedelta(seconds=refresh_leeway) > now`; otherwise a token
is minted (outside the lock) and stored. -/
def generateDeveloperToken (cache : TokenCache) (config : MusicKitConfig)
    (ttl_seconds : ℤ) (refresh_leeway : ℤ) (now : ℚ)
    (readKey : Except ToolErr String)
    (encode : Claims → JwtHeader → String → EncodeOutcome) :
    Except ToolErr String × TokenCache :=
  let key := cacheKey config
  let hit : Option String :=
    match cache key with
    | some (token, expires_at) =>
        if expires_at - (refresh_leeway : ℚ) > now then some token else Option.none
    | Option.none => Option.none
  match hit with
  | some token => (.ok token, cache)
  | Option.none =>
    match mintDeveloperToken config ttl_seconds now readKey encode with
    | .error e => (.error e, cache)
    | .ok (token, expires_at) =>
        (.ok token, fun k => if k = key then some (token, expires_at) else cache k)

/-- Failure of the fallback signing pipeline: either a raised `ToolError`
or a raised non-`ToolError` exception (Python `IndexError` from an
out-of-range `signature[offset]` access in `_der_to_raw`). -/
inductive DerFail where
  | toolError (e : ToolErr)
  | indexError

/-- `ToolError` of auth.py lines 227-230. -/
def invalidSignatureEncodingError : ToolErr :=
  { code := "invalid_signature"
    message := "Unexpected signature encoding returned by OpenSSL." }

/-- `ToolError` of auth.py line 236. -/
def missingRComponentError : ToolErr :=
  { code := "invalid_signature"
    message := "Malformed DER sequence (missing R component)." }

/-- `ToolError` of auth.py line 241. -/
def missingSComponentError : ToolErr :=
  { code := "invalid_signature"
    message := "Malformed DER sequence (missing S component)." }

/-- Python `bytes.lstrip(b"\x00")`: drop leading zero bytes. -/
def lstripZero : List Nat → List Nat
  | [] => []
  | b :: rest => if b = 0 then lstripZero rest else b :: rest

/-- Python `bytes.rjust(32, b"\x00")`: left-pad with zero bytes to length 32
(unchanged when already at least 32 bytes long). -/
def rjust32 (l : List Nat) : List Nat := List.replicate (32 - l.length) 0 ++ l

/-- Lines 231-233 of auth.py: `length = signature[1]`;
`if length + 2 != len(signature): signature = signature[: length + 2]`
(Python slicing truncates leniently when `length + 2` exceeds the size). -/
def derTruncate (sig : List Nat) : List Nat :=
  let length := sig.getD 1 0
  if length + 2 ≠ sig.length then sig.take (length + 2) else sig

/-- `_der_to_raw(signature)` (auth.py lines 225-246).  Bytes are `List Nat`;
`signature[i]` out of range is Python `IndexError` (`DerFail.indexError`);
slices use Python's lenient truncating semantics `(take hi).drop lo`. -/
def derToRaw (sig : List Nat) : Except DerFail (List Nat) :=
  if sig.length < 8 ∨ sig[0]? ≠ some 0x30 then
    .error (.toolError invalidSignatureEncodingError)
  else
    let signature := derTruncate sig
    match signature[2]? with
    | Option.none => .error .indexError
    | some tagR =>
      if tagR ≠ 0x02 then .error (.toolError missingRComponentError)
      else
        match signature[3]? with
        | Option.none => .error .indexError
        | some r_len =>
          let r := (signature.take (4 + r_len)).drop 4
          let offset := 2 + 2 + r_len
          match signature[offset]? with
          | Option.none => .error .indexError
          | some tagS =>
            if tagS ≠ 0x02 then .error (.toolError missingSComponentError)
            else
              match signature[offset + 1]? with
              | Option.none => .error .indexError
              | some s_len =>
                let s := (signature.take (offset + 2 + s_len)).drop (offset + 2)
                .ok (rjust32 (lstripZero r) ++ rjust32 (lstripZero s))

/-- The base64url alphabet used by `base64.urlsafe_b64encode`. -/
def B64URL_ALPHABET : String :=
  "ABCDEFGHIJKLMNOPQRSTUVWXYZabcdefghijklmnopqrstuvwxyz0123456789-_"

/-- Sextet index → base64url character. -/
def b64urlChar (n : Nat) : Char := B64URL_ALPHABET.toList.getD n '?'

/-- Byte triples → sextets, with the shortened final groups that
`rstrip(b"=")` leaves after padding removal. -/
def b64urlChunks : List Nat → List Nat
  | [] => []
  | [a] => [a / 4, a % 4 * 16]
  | [a, b] => [a / 4, a % 4 * 16 + b / 16, b % 16 * 4]
  | a :: b :: c :: rest =>
      a / 4 :: (a % 4 * 16 + b / 16) :: (b % 16 * 4 + c / 64) :: c % 64 ::
        b64urlChunks rest

/-- `_b64url(data)` (auth.py lines 249-252):
`base64.urlsafe_b64encode(data).rstrip(b"=").decode("ascii")`. -/
def b64url (data : List Nat) : String := String.mk ((b64urlChunks data).map b64urlChar)

/-- Outcome of `subprocess.run(["openssl", "dgst", "-sha256", "-sign", key_path], ...)`
in `_sign_with_openssl`: the binary is missing (`FileNotFoundError`), the
process exited non-zero (`CalledProcessError`, with decoded stderr when
non-empty), or it succeeded with a DER signature on stdout. -/
inductive RunOutcome where
  | fileNotFound
  | calledProcessError (stderr : Option String)
  | success (stdout : List Nat)

/-- `ToolError` of auth.py lines 202-206. -/
def opensslMissingError : ToolErr :=
  { code := "openssl_missing"
    message := "OpenSSL is required to sign developer tokens when PyJWT is unavailable."
    hint := PyVal.str "Install OpenSSL or add PyJWT to the environment." }

/-- `ToolError` of auth.py lines 208-212 (`exc.stderr.decode() if exc.stderr else None`). -/
def opensslSignFailedError (stderr : Option String) : ToolErr :=
  { code := "openssl_sign_failed"
    message := "OpenSSL failed to sign the developer token payload."
    hint := match stderr with | some s => PyVal.str s | Option.none => PyVal.none }

/-- `_sign_with_openssl(signing_input, private_key)` (auth.py lines 189-222).
The temporary key file has been created and `key_path` set before the
subprocess runs; `run` is the subprocess oracle.  The Boolean in the result
records whether the `finally` block unlinked the temporary key file before
the function returned or its exception propagated; the DER conversion and
base64url encoding (lines 220-222) run after the `finally`. -/
def signWithOpenssl (run : RunOutcome) : Except DerFail String × Bool :=
  match run with
  | .fileNotFound =>
      -- except FileNotFoundError → ToolError; finally unlinks key_path first
      (.error (.toolError opensslMissingError), true)
  | .calledProcessError stderr =>
      -- except CalledProcessError → ToolError; finally unlinks key_path first
      (.error (.toolError (opensslSignFailedError stderr)), true)
  | .success stdout =>
      -- try block completed; finally unlinks key_path, then lines 220-222 run
      let deleted := true
      match derToRaw stdout with
      | .error e => (.error e, deleted)
      | .ok raw_signature => (.ok (b64url raw_signature), deleted)

/-- A well-formed single-byte-length DER `SEQUENCE { INTEGER r, INTEGER s }`
for content bytes `r` and `s`: input family for the round-trip claim. -/
def derEncode (r s : List Nat) : List Nat :=
  0x30 :: (4 + r.length + s.length) :: 0x02 :: r.length :: (r ++ 0x02 :: s.length :: s)

/-- Python truthiness of a decoded value. -/
def pyTruthy : PyVal → Bool
  | .none => false
  | .bool b => b
  | .int n => n ≠ 0
  | .str s => !s.isEmpty
  | .list items => !items.isEmpty
  | .dict entries => !entries.isEmpty

/-- `isinstance(x, Iterable)` for decoded JSON values: strings, lists and
dicts are iterable; `None`, booleans and numbers are not. -/
def pyIsIterable : PyVal → Bool
  | .str _ => true
  | .list _ => true
  | .dict _ => true
  | _ => false

/-- `next(iter(x), None)`: first list element, first character (as a
string), or first dict key; `None` when empty. -/
def pyFirst : PyVal → PyVal
  | .str s =>
      match s.toList with
      | [] => .none
      | c :: _ => .str (String.mk [c])
  | .list items => items.headD .none
  | .dict entries =>
      match entries with
      | [] => .none
      | (k, _) :: _ => .str k
  | _ => .none

/-- `d.get(key)` on a decoded JSON object: `None` when absent. -/
def dictGet (entries : List (String × PyVal)) (key : String) : PyVal :=
  match entries.find? (fun kv => kv.1 = key) with
  | some kv => kv.2
  | Option.none => .none

/-- Python `a or b`: `a` when truthy, else `b`. -/
def pyOr (a b : PyVal) : PyVal := if pyTruthy a then a else b

/-- `_HttpResponse` (musickit.py lines 24-30): status code, raw text, and
the outcome of `response.json()` (`.error msg` models a
`json.JSONDecodeError` whose `str()` is `msg`). -/
structure HttpResp where
  status_code : ℤ
  text : String
  json : Except String PyVal

/-- Outcome of one `_perform_request` call: a response, or a raised
`ToolError("network_error", ...)` with the hint it carries. -/
inductive PerformOutcome where
  | response (r : HttpResp)
  | networkError (hint : PyVal)

/-- `ToolError` of musickit.py lines 52-56 / 76-80. -/
def networkErrorToolErr (hint : PyVal) : ToolErr :=
  { code := "network_error"
    message := "Unable to reach the MusicKit API."
    hint := hint }

/-- `_raise_for_status(response)` (musickit.py lines 137-153), returning the
`ToolError` it raises. -/
def raiseForStatus (response : HttpResp) : ToolErr :=
  let hint : PyVal :=
    match response.json with
    | .error _ => .str response.text
    | .ok payload =>
      let errors : PyVal :=
        match payload with
        | .dict entries => dictGet entries "errors"
        | _ => .none
      if pyTruthy errors ∧ pyIsIterable errors then
        match pyFirst errors with
        | .dict first => pyOr (dictGet first "detail") (dictGet first "message")
        | _ => .none
      else .none
  { code := "musickit_error"
    message := "MusicKit API returned status " ++ toString response.status_code ++ "."
    hint := hint }

/-- `_MAX_RETRIES = 3` (musickit.py line 21). -/
def MAX_RETRIES : ℕ := 3

/-- Result of one logical `_request` call plus the trace of its effects. -/
structure RequestTrace where
  result : Except ToolErr PyVal
  sleeps : List ℚ          -- durations passed to time.sleep, in order
  tokensUsed : List String -- bearer token in the headers of each attempt
  fetchCalls : ℕ           -- number of generate_developer_token calls

/-- The `for attempt in range(1, _MAX_RETRIES + 1)` loop of `_request`
(musickit.py lines 100-134), over the list of remaining attempt numbers.
`perform` gives each attempt's `_perform_request` outcome; `jitter` the
`random.uniform(0, 0.3)` draw of each retry.  The empty-list case is the
fall-through `last_error is None` branch (lines 128-133). -/
def requestLoop (token : String) (perform : ℕ → PerformOutcome) (jitter : ℕ → ℚ) :
    List ℕ → List ℚ → List String → RequestTrace
  | [], sleeps, tokens =>
      { result := .error { code := "musickit_unavailable"
                           message := "MusicKit API request failed after retries." }
        sleeps := sleeps, tokensUsed := tokens, fetchCalls := 1 }
  | attempt :: rest, sleeps, tokens =>
      let tokens := tokens ++ [token]
      match perform attempt with
      | .networkError hint =>
          { result := .error (networkErrorToolErr hint)
            sleeps := sleeps, tokensUsed := tokens, fetchCalls := 1 }
      | .response response =>
        if 500 ≤ response.status_code ∧ response.status_code < 600 then
          if attempt = MAX_RETRIES then
            { result := .error
                { code := "musickit_unavailable"
                  message := "MusicKit returned repeated server errors."
                  hint := .str ("Last status: " ++ toString response.status_code) }
              sleeps := sleeps, tokensUsed := tokens, fetchCalls := 1 }
          else
            let sleep_seconds := min (3 / 2 : ℚ) ((1 / 5 : ℚ) * (attempt : ℚ) + jitter attempt)
            requestLoop token perform jitter rest (sleeps ++ [sleep_seconds]) tokens
        else if response.status_code ≠ 200 then
          { result := .error (raiseForStatus response)
            sleeps := sleeps, tokensUsed := tokens, fetchCalls := 1 }
        else
          match response.json with
          | .ok payload =>
              { result := .ok payload
                sleeps := sleeps, tokensUsed := tokens, fetchCalls := 1 }
          | .error msg =>
              { result := .error { code := "invalid_response"
                                   message := "MusicKit response was not valid JSON."
                                   hint := .str msg }
                sleeps := sleeps, tokensUsed := tokens, fetchCalls := 1 }

/-- `_request(method, path, config=..., params=...)` (musickit.py lines
85-134).  `fetchToken n` is the token the `n`-th call to
`generate_developer_token(config)` during this logical request would
return; the source performs exactly one such call (line 93), before the
attempt loop, and puts that token in the headers shared by every attempt. -/
def musickitRequest (fetchToken : ℕ → String) (perform : ℕ → PerformOutcome)
    (jitter : ℕ → ℚ) : RequestTrace :=
  let token := fetchToken 0
  requestLoop token perform jitter (List.range' 1 MAX_RETRIES) [] []

/-- `_CACHE_TTL_SECONDS = 300` (search.py line 12). -/
def CACHE_TTL_SECONDS : ℚ := 300

/-- `_SEARCH_CACHE` key (search.py lines 89-94): lowercased term, sorted
type tuple, limit, offset. -/
structure SearchKey where
  term : String
  types : List String
  limit : ℤ
  offset : ℤ
deriving DecidableEq

/-- `_SEARCH_CACHE`: key → `(timestamp, payload)`. -/
def SearchCache (α : Type) : Type := SearchKey → Option (ℚ × α)

/-- The cache consultation of `handle_search` (search.py lines 95-98):
`cached = _SEARCH_CACHE.get(cache_key)` followed by
`if cached and now - cached[0] < _CACHE_TTL_SECONDS`. -/
def searchCacheLookup {α : Type} (cache : SearchCache α) (key : SearchKey)
    (now : ℚ) : Option α :=
  match cache key with
  | some (ts, payload) =>
      if now - ts < CACHE_TTL_SECONDS then some payload else Option.none
  | Option.none => Option.none

/-- The cache population of `handle_search` (search.py line 126):
`_SEARCH_CACHE[cache_key] = (now, payload)`. -/
def searchCacheStore {α : Type} (cache : SearchCache α) (key : SearchKey)
    (now : ℚ) (payload : α) : SearchCache α :=
  fun k => if k = key then some (now, payload) else cache k

/-! ## Theorems -/

lemma max_ttl_pos : (0 : ℤ) < MAX_TOKEN_TTL_SECONDS := by
  norm_num [MAX_TOKEN_TTL_SECONDS]

/-- C5: `_mint_developer_token` with `ttl_seconds <= 0` fails with the
`invalid_token_ttl` classified error, and with `ttl_seconds` greater than
180 days (`MAX_TOKEN_TTL_SECONDS`) it fails with the `ttl_too_long`
classified error; in both cases the result is the error for every key-read
and signing oracle (so the TTL is never silently clamped and neither the
key read nor the signing influences or is needed for the outcome). -/
theorem C5_ttl_validation (config : MusicKitConfig) (ttl : ℤ) (now : ℚ)
    (readKey : Except ToolErr String)
    (encode : Claims → JwtHeader → String → EncodeOutcome) :
    (ttl ≤ 0 →
      mintDeveloperToken config ttl now readKey encode = .error invalidTokenTtlError) ∧
    (MAX_TOKEN_TTL_SECONDS < ttl →
      mintDeveloperToken config ttl now readKey encode = .error ttlTooLongError) := by
  constructor
  · intro h
    simp [mintDeveloperToken, h]
  · intro h
    have h0 : ¬ ttl ≤ 0 := by
      have := max_ttl_pos
      omega
    simp [mintDeveloperToken, h0, h]

theorem C5_ttl_validation_witness :
    mintDeveloperToken ⟨"T", "K", "/p", "us"⟩ 0 100 (.ok "key")
      (fun _ _ _ => .ok "tok") = .error invalidTokenTtlError ∧
    mintDeveloperToken ⟨"T", "K", "/p", "us"⟩ (MAX_TOKEN_TTL_SECONDS + 1) 100 (.ok "key")
      (fun _ _ _ => .ok "tok") = .error ttlTooLongError :=
  ⟨(C5_ttl_validation ⟨"T", "K", "/p", "us"⟩ 0 100 (.ok "key")
      (fun _ _ _ => .ok "tok")).1 le_rfl,
   (C5_ttl_validation ⟨"T", "K", "/p", "us"⟩ (MAX_TOKEN_TTL_SECONDS + 1) 100 (.ok "key")
      (fun _ _ _ => .ok "tok")).2 (lt_add_one _)⟩

/-- C6: for every valid TTL in `(0, 180 days]` and every configuration, the
claims dict built by `_mint_developer_token` satisfies `exp - iat = ttl`
exactly, `iss` is the configured team id, and `aud` is the fixed
`https://music.apple.com` constant; moreover the minted token is exactly the
encoding of those claims (with the `ES256` header carrying the configured
key id), returned with expiry `now + ttl`. -/
theorem C6_minted_claims (config : MusicKitConfig) (ttl : ℤ) (now : ℚ)
    (h1 : 0 < ttl) (h2 : ttl ≤ MAX_TOKEN_TTL_SECONDS) (h3 : 0 ≤ now) :
    (mintClaims config ttl now).exp - (mintClaims config ttl now).iat = ttl ∧
    (mintClaims config ttl now).iss = config.team_id ∧
    (mintClaims config ttl now).aud = "https://music.apple.com" ∧
    ∀ (key token : String) (encode : Claims → JwtHeader → String → EncodeOutcome),
      encode (mintClaims config ttl now) { alg := "ES256", kid := config.key_id } key
          = .ok token →
      mintDeveloperToken config ttl now (.ok key) encode = .ok (token, now + (ttl : ℚ)) := by
  have h0 : (0 : ℚ) ≤ now + (ttl : ℚ) := by
    have : (0 : ℚ) ≤ (ttl : ℚ) := by exact_mod_cast h1.le
    linarith
  refine ⟨?_, rfl, rfl, ?_⟩
  · simp only [mintClaims, pyInt, if_pos h3, if_pos h0]
    rw [Int.floor_add_int]
    ring
  · intro key token encode henc
    have hg1 : ¬ ttl ≤ 0 := not_le.mpr h1
    have hg2 : ¬ MAX_TOKEN_TTL_SECONDS < ttl := not_lt.mpr h2
    simp [mintDeveloperToken, hg1, hg2, henc]

theorem C6_minted_claims_witness :
    (mintClaims ⟨"TEAM1234", "KEY1234", "/p", "us"⟩ 600 1000).exp
        - (mintClaims ⟨"TEAM1234", "KEY1234", "/p", "us"⟩ 600 1000).iat = 600 ∧
    (mintClaims ⟨"TEAM1234", "KEY1234", "/p", "us"⟩ 600 1000).iss = "TEAM1234" ∧
    (mintClaims ⟨"TEAM1234", "KEY1234", "/p", "us"⟩ 600 1000).aud
        = "https://music.apple.com" ∧
    ∀ (key token : String) (encode : Claims → JwtHeader → String → EncodeOutcome),
      encode (mintClaims ⟨"TEAM1234", "KEY1234", "/p", "us"⟩ 600 1000)
          { alg := "ES256", kid := "KEY1234" } key = .ok token →
      mintDeveloperToken ⟨"TEAM1234", "KEY1234", "/p", "us"⟩ 600 1000 (.ok key) encode
          = .ok (token, 1000 + (600 : ℚ)) :=
  C6_minted_claims ⟨"TEAM1234", "KEY1234", "/p", "us"⟩ 600 1000 (by norm_num)
    (by norm_num [MAX_TOKEN_TTL_SECONDS]) (by norm_num)

/-- C8: on every outcome of the fallback external-process signer — success,
missing `openssl` binary, and non-zero exit alike — the `finally` block of
`_sign_with_openssl` deletes the temporary private-key file before the call
returns or its error propagates (the trace's deletion flag is set on every
branch, including the post-`finally` DER-conversion failures). -/
theorem C8_temp_key_deleted (run : RunOutcome) : (signWithOpenssl run).2 = true := by
  cases run with
  | fileNotFound => rfl
  | calledProcessError stderr => rfl
  | success stdout =>
      simp only [signWithOpenssl]
      rcases h : derToRaw stdout with e | raw <;> simp [h]

/-- C9: a search-cache lookup returns the stored payload iff
`now - stored_timestamp < 300` seconds; a lookup immediately after a store
returns that payload; and once the TTL has elapsed the lookup is absent
even though the stale entry is still present in the cache. -/
theorem C9_search_cache {α : Type} (cache : SearchCache α) (key : SearchKey)
    (now ts : ℚ) (payload : α)
    (stored : cache key = some (ts, payload)) :
    (searchCacheLookup cache key now = some payload ↔ now - ts < 300) ∧
    searchCacheLookup (searchCacheStore cache key now payload) key now = some payload ∧
    (300 ≤ now - ts →
      searchCacheLookup cache key now = Option.none ∧ cache key = some (ts, payload)) := by
  refine ⟨?_, ?_, ?_⟩
  · simp only [searchCacheLookup, stored, CACHE_TTL_SECONDS]
    split_ifs with h
    · simp [h]
    · simp [h]
  · simp [searchCacheLookup, searchCacheStore, CACHE_TTL_SECONDS]
  · intro h
    refine ⟨?_, stored⟩
    simp only [searchCacheLookup, stored, CACHE_TTL_SECONDS]
    rw [if_neg (not_lt.mpr h)]

theorem C9_search_cache_witness :
    (searchCacheLookup
        (fun k => if k = ⟨"hello", ["songs"], 10, 0⟩ then some ((0 : ℚ), (42 : ℕ))
          else Option.none)
        ⟨"hello", ["songs"], 10, 0⟩ 100 = some 42 ↔ (100 : ℚ) - 0 < 300) ∧
    searchCacheLookup
        (searchCacheStore
          (fun k => if k = ⟨"hello", ["songs"], 10, 0⟩ then some ((0 : ℚ), (42 : ℕ))
            else Option.none)
          ⟨"hello", ["songs"], 10, 0⟩ 100 42)
        ⟨"hello", ["songs"], 10, 0⟩ 100 = some 42 ∧
    ((300 : ℚ) ≤ 100 - 0 →
      searchCacheLookup
          (fun k => if k = ⟨"hello", ["songs"], 10, 0⟩ then some ((0 : ℚ), (42 : ℕ))
            else Option.none)
          ⟨"hello", ["songs"], 10, 0⟩ 100 = Option.none ∧
        (fun (k : SearchKey) => if k = ⟨"hello", ["songs"], 10, 0⟩
            then some ((0 : ℚ), (42 : ℕ)) else Option.none)
          ⟨"hello", ["songs"], 10, 0⟩ = some (0, 42)) :=
  C9_search_cache
    (fun k => if k = ⟨"hello", ["songs"], 10, 0⟩ then some ((0 : ℚ), (42 : ℕ))
      else Option.none)
    ⟨"hello", ["songs"], 10, 0⟩ 100 0 42 (by simp)

lemma range'_one_three : List.range' 1 3 = [1, 2, 3] := rfl

/-- C2: when every attempt of a `_request` call answers with a 5xx status,
exactly 3 attempts are made, a backoff of
`min(1.5, 0.2 * attempt + jitter)` is slept between consecutive attempts,
and the call fails with the `musickit_unavailable` classification whose
hint carries the last observed status; when an attempt before the last
returns 200, no further attempts are made and the parsed JSON body is
returned. -/
theorem C2_retry_policy (fetchToken : ℕ → String) (perform : ℕ → PerformOutcome)
    (jitter : ℕ → ℚ) (r1 r2 r3 : HttpResp)
    (hp1 : perform 1 = .response r1) (hp2 : perform 2 = .response r2)
    (hp3 : perform 3 = .response r3) :
    (500 ≤ r1.status_code → r1.status_code < 600 →
     500 ≤ r2.status_code → r2.status_code < 600 →
     500 ≤ r3.status_code → r3.status_code < 600 →
      (musickitRequest fetchToken perform jitter).result
          = .error { code := "musickit_unavailable"
                     message := "MusicKit returned repeated server errors."
                     hint := .str ("Last status: " ++ toString r3.status_code) } ∧
      (musickitRequest fetchToken perform jitter).tokensUsed.length = 3 ∧
      (musickitRequest fetchToken perform jitter).sleeps
          = [min (3 / 2 : ℚ) (1 / 5 * (1 : ℕ) + jitter 1),
             min (3 / 2 : ℚ) (1 / 5 * (2 : ℕ) + jitter 2)]) ∧
    (500 ≤ r1.status_code → r1.status_code < 600 → r2.status_code = 200 →
      ∀ payload, r2.json = .ok payload →
      (musickitRequest fetchToken perform jitter).result = .ok payload ∧
      (musickitRequest fetchToken perform jitter).tokensUsed.length = 2) ∧
    (r1.status_code = 200 → ∀ payload, r1.json = .ok payload →
      (musickitRequest fetchToken perform jitter).result = .ok payload ∧
      (musickitRequest fetchToken perform jitter).tokensUsed.length = 1) := by
  refine ⟨?_, ?_, ?_⟩
  · intro h1a h1b h2a h2b h3a h3b
    simp [musickitRequest, requestLoop, range'_one_three, hp1, hp2, hp3,
      h1a, h1b, h2a, h2b, h3a, h3b, MAX_RETRIES]
  · intro h1a h1b h200 payload hjson
    simp [musickitRequest, requestLoop, range'_one_three, hp1, hp2,
      h1a, h1b, h200, hjson, MAX_RETRIES]
  · intro h200 payload hjson
    simp [musickitRequest, requestLoop, range'_one_three, hp1, h200, hjson,
      MAX_RETRIES]

theorem C2_retry_policy_witness :
    ((musickitRequest (fun _ => "t") (fun _ => .response ⟨503, "", .error "boom"⟩)
        (fun _ => 0)).result
        = .error { code := "musickit_unavailable"
                   message := "MusicKit returned repeated server errors."
                   hint := .str ("Last status: " ++ toString (503 : ℤ)) } ∧
      (musickitRequest (fun _ => "t") (fun _ => .response ⟨503, "", .error "boom"⟩)
        (fun _ => 0)).tokensUsed.length = 3 ∧
      (musickitRequest (fun _ => "t") (fun _ => .response ⟨503, "", .error "boom"⟩)
        (fun _ => 0)).sleeps
        = [min (3 / 2 : ℚ) (1 / 5 * (1 : ℕ) + 0),
           min (3 / 2 : ℚ) (1 / 5 * (2 : ℕ) + 0)]) ∧
    ((musickitRequest (fun _ => "t")
        (fun i => if i = 1 then .response ⟨503, "", .error "boom"⟩
          else .response ⟨200, "ok", .ok (PyVal.dict [])⟩)
        (fun _ => 0)).result = .ok (PyVal.dict []) ∧
      (musickitRequest (fun _ => "t")
        (fun i => if i = 1 then .response ⟨503, "", .error "boom"⟩
          else .response ⟨200, "ok", .ok (PyVal.dict [])⟩)
        (fun _ => 0)).tokensUsed.length = 2) :=
  ⟨(C2_retry_policy (fun _ => "t") (fun _ => .response ⟨503, "", .error "boom"⟩)
      (fun _ => 0) ⟨503, "", .error "boom"⟩ ⟨503, "", .error "boom"⟩
      ⟨503, "", .error "boom"⟩ rfl rfl rfl).1
      (by norm_num) (by norm_num) (by norm_num) (by norm_num) (by norm_num) (by norm_num),
   (C2_retry_policy (fun _ => "t")
      (fun i => if i = 1 then .response ⟨503, "", .error "boom"⟩
        else .response ⟨200, "ok", .ok (PyVal.dict [])⟩)
      (fun _ => 0) ⟨503, "", .error "boom"⟩ ⟨200, "ok", .ok (PyVal.dict [])⟩
      ⟨200, "ok", .ok (PyVal.dict [])⟩ rfl rfl rfl).2.1
      (by norm_num) (by norm_num) rfl (PyVal.dict []) rfl⟩

lemma requestLoop_fetchCalls_eq_one (token : String) (perform : ℕ → PerformOutcome)
    (jitter : ℕ → ℚ) :
    ∀ (attempts : List ℕ) (sleeps : List ℚ) (tokens : List String),
      (requestLoop token perform jitter attempts sleeps tokens).fetchCalls = 1 := by
  intro attempts
  induction attempts with
  | nil => intro s k; rfl
  | cons a rest ih =>
      intro s k
      cases hp : perform a with
      | networkError hint => simp [requestLoop, hp]
      | response resp =>
          simp only [requestLoop, hp]
          split_ifs with h5 hlast hnot200
          · rfl
          · exact ih _ _
          · rfl
          · cases hj : resp.json <;> simp [hj]

lemma requestLoop_tokensUsed_all (token : String) (perform : ℕ → PerformOutcome)
    (jitter : ℕ → ℚ) :
    ∀ (attempts : List ℕ) (sleeps : List ℚ) (tokens : List String),
      (∀ t ∈ tokens, t = token) →
      ∀ t ∈ (requestLoop token perform jitter attempts sleeps tokens).tokensUsed,
        t = token := by
  intro attempts
  induction attempts with
  | nil => intro s k hk; exact hk
  | cons a rest ih =>
      intro s k hk
      have hk' : ∀ t ∈ k ++ [token], t = token := by
        intro t ht
        rcases List.mem_append.mp ht with h | h
        · exact hk t h
        · simpa using h
      cases hp : perform a with
      | networkError hint => simpa [requestLoop, hp] using hk'
      | response resp =>
          simp only [requestLoop, hp]
          split_ifs with h5 hlast hnot200
          · simpa using hk'
          · exact ih _ _ hk'
          · simpa using hk'
          · cases hj : resp.json <;> simpa [hj] using hk'

/-- C1 (amended): `_request` obtains a bearer token from the token cache
exactly once per logical call, before the first attempt, and every attempt
of that call carries that same initially fetched token in its
`Authorization` header (the token is never re-fetched between retries). -/
theorem C1_single_token_fetch (fetchToken : ℕ → String)
    (perform : ℕ → PerformOutcome) (jitter : ℕ → ℚ) :
    (musickitRequest fetchToken perform jitter).fetchCalls = 1 ∧
    (musickitRequest fetchToken perform jitter).tokensUsed
      = List.replicate (musickitRequest fetchToken perform jitter).tokensUsed.length
          (fetchToken 0) := by
  constructor
  · exact requestLoop_fetchCalls_eq_one (fetchToken 0) perform jitter _ _ _
  · refine List.eq_replicate_iff.mpr ⟨rfl, ?_⟩
    exact requestLoop_tokensUsed_all (fetchToken 0) perform jitter _ _ _ (by simp)

/-- C1 counterexample: with a token oracle returning a distinct token on
each fetch (`fetchToken n = toString n`) and a first attempt answering 503
followed by a 200, the call enters the retry loop and makes two attempts,
but both attempts carry the token of the single pre-loop fetch
(`["0", "0"]`): only one fetch happens, and the second attempt does not use
a freshly fetched token (`"1"`), contradicting the claim that a token is
obtained before each individual attempt. -/
theorem C1_per_attempt_fetch_counterexample :
    (musickitRequest (fun n => toString n)
        (fun i => if i = 1 then .response ⟨503, "", .error "e"⟩
          else .response ⟨200, "ok", .ok (PyVal.dict [])⟩)
        (fun _ => 0)).tokensUsed = ["0", "0"] ∧
    (musickitRequest (fun n => toString n)
        (fun i => if i = 1 then .response ⟨503, "", .error "e"⟩
          else .response ⟨200, "ok", .ok (PyVal.dict [])⟩)
        (fun _ => 0)).fetchCalls = 1 ∧
    ¬ (musickitRequest (fun n => toString n)
        (fun i => if i = 1 then .response ⟨503, "", .error "e"⟩
          else .response ⟨200, "ok", .ok (PyVal.dict [])⟩)
        (fun _ => 0)).tokensUsed = ["0", "1"] :=
  ⟨rfl, rfl, by decide⟩

lemma generateDeveloperToken_hit (cache : TokenCache) (config : MusicKitConfig)
    (ttl leeway : ℤ) (now : ℚ) (rk : Except ToolErr String)
    (enc : Claims → JwtHeader → String → EncodeOutcome) (tok : String) (exp : ℚ)
    (hc : cache (cacheKey config) = some (tok, exp))
    (hf : exp - (leeway : ℚ) > now) :
    generateDeveloperToken cache config ttl leeway now rk enc = (.ok tok, cache) := by
  simp [generateDeveloperToken, hc, hf]

lemma mintDeveloperToken_ok (config : MusicKitConfig) (ttl : ℤ) (now : ℚ)
    (rk : Except ToolErr String)
    (enc : Claims → JwtHeader → String → EncodeOutcome) (tok : String) (exp : ℚ)
    (h : mintDeveloperToken config ttl now rk enc = .ok (tok, exp)) :
    0 < ttl ∧ exp = now + (ttl : ℚ) := by
  by_cases h1 : ttl ≤ 0
  · simp [mintDeveloperToken, h1] at h
  by_cases h2 : MAX_TOKEN_TTL_SECONDS < ttl
  · simp [mintDeveloperToken, h1, h2] at h
  rcases rk with e | key
  · simp [mintDeveloperToken, h1, h2] at h
  rcases henc : enc (mintClaims config ttl now) { alg := "ES256", kid := config.key_id } key
    with t | e | _
  · simp [mintDeveloperToken, h1, h2, henc] at h
    exact ⟨by omega, h.2.symm⟩
  · simp [mintDeveloperToken, h1, h2, henc] at h
  · simp [mintDeveloperToken, h1, h2, henc] at h

/-- C4: token-cache policy of `generate_developer_token`: (1) while the
cached entry for the configuration's key satisfies
`expires_at - refresh_leeway > now`, two consecutive calls both return the
byte-identical cached token and leave the cache untouched, for every
key-read/signing oracle (no minting); (2) a call made when the entry is
stale under that condition mints, returns the newly minted token and stores
it under the same key; (3) for a nonnegative leeway, every token the cache
returns is unexpired: its stored expiry lies strictly after `now`. -/
theorem C4_token_cache_policy (config : MusicKitConfig) (cache : TokenCache)
    (ttl leeway : ℤ) :
    (∀ (tok : String) (exp now₁ now₂ : ℚ) (rk₁ rk₂ : Except ToolErr String)
        (enc₁ enc₂ : Claims → JwtHeader → String → EncodeOutcome),
      cache (cacheKey config) = some (tok, exp) →
      exp - (leeway : ℚ) > now₁ → exp - (leeway : ℚ) > now₂ →
      generateDeveloperToken cache config ttl leeway now₁ rk₁ enc₁ = (.ok tok, cache) ∧
      generateDeveloperToken
          (generateDeveloperToken cache config ttl leeway now₁ rk₁ enc₁).2
          config ttl leeway now₂ rk₂ enc₂ = (.ok tok, cache)) ∧
    (∀ (tok tok' : String) (exp exp' now : ℚ) (rk : Except ToolErr String)
        (enc : Claims → JwtHeader → String → EncodeOutcome),
      cache (cacheKey config) = some (tok, exp) →
      ¬ exp - (leeway : ℚ) > now →
      mintDeveloperToken config ttl now rk enc = .ok (tok', exp') →
      (generateDeveloperToken cache config ttl leeway now rk enc).1 = .ok tok' ∧
      (generateDeveloperToken cache config ttl leeway now rk enc).2 (cacheKey config)
        = some (tok', exp')) ∧
    (∀ (now : ℚ) (rk : Except ToolErr String)
        (enc : Claims → JwtHeader → String → EncodeOutcome) (t : String),
      0 ≤ leeway →
      (generateDeveloperToken cache config ttl leeway now rk enc).1 = .ok t →
      ∃ e, (generateDeveloperToken cache config ttl leeway now rk enc).2 (cacheKey config)
          = some (t, e) ∧ now < e) := by
  refine ⟨?_, ?_, ?_⟩
  · intro tok exp now₁ now₂ rk₁ rk₂ enc₁ enc₂ hc h1 h2
    have g1 := generateDeveloperToken_hit cache config ttl leeway now₁ rk₁ enc₁ tok exp hc h1
    refine ⟨g1, ?_⟩
    rw [g1]
    exact generateDeveloperToken_hit cache config ttl leeway now₂ rk₂ enc₂ tok exp hc h2
  · intro tok tok' exp exp' now rk enc hc hstale hm
    constructor
    · simp [generateDeveloperToken, hc, hstale, hm]
    · simp [generateDeveloperToken, hc, hstale, hm]
  · intro now rk enc t hlee hok
    have hleeQ : (0 : ℚ) ≤ (leeway : ℚ) := by exact_mod_cast hlee
    rcases hcache : cache (cacheKey config) with _ | ⟨tok, exp⟩
    · rcases hm : mintDeveloperToken config ttl now rk enc with e | ⟨tok', exp'⟩
      · simp [generateDeveloperToken, hcache, hm] at hok
      · obtain ⟨hpos, hexp⟩ := mintDeveloperToken_ok config ttl now rk enc tok' exp' hm
        have hgen : generateDeveloperToken cache config ttl leeway now rk enc
            = (.ok tok', fun k => if k = cacheKey config then some (tok', exp')
                else cache k) := by
          simp [generateDeveloperToken, hcache, hm]
        rw [hgen] at hok ⊢
        simp only [Except.ok.injEq] at hok
        subst hok
        refine ⟨exp', by simp, ?_⟩
        have : (0 : ℚ) < (ttl : ℚ) := by exact_mod_cast hpos
        rw [hexp]
        linarith
    · by_cases hfresh : exp - (leeway : ℚ) > now
      · have hgen := generateDeveloperToken_hit cache config ttl leeway now rk enc tok exp
          hcache hfresh
        rw [hgen] at hok ⊢
        simp only [Except.ok.injEq] at hok
        subst hok
        exact ⟨exp, hcache, by linarith⟩
      · rcases hm : mintDeveloperToken config ttl now rk enc with e | ⟨tok', exp'⟩
        · simp [generateDeveloperToken, hcache, hfresh, hm] at hok
        · obtain ⟨hpos, hexp⟩ := mintDeveloperToken_ok config ttl now rk enc tok' exp' hm
          have hgen : generateDeveloperToken cache config ttl leeway now rk enc
              = (.ok tok', fun k => if k = cacheKey config then some (tok', exp')
                  else cache k) := by
            simp [generateDeveloperToken, hcache, hfresh, hm]
          rw [hgen] at hok ⊢
          simp only [Except.ok.injEq] at hok
          subst hok
          refine ⟨exp', by simp, ?_⟩
          have : (0 : ℚ) < (ttl : ℚ) := by exact_mod_cast hpos
          rw [hexp]
          linarith

/-- Concrete configuration used by the C4 witness. -/
def cfgEx : MusicKitConfig := ⟨"T", "K", "/p", "us"⟩

/-- Concrete token cache used by the C4 witness: one fresh entry. -/
def cacheEx : TokenCache :=
  fun k => if k = cacheKey cfgEx then some ("tok", 1000) else Option.none

/-- Concrete signing oracle used by the C4 witness. -/
def encEx : Claims → JwtHeader → String → EncodeOutcome := fun _ _ _ => .ok "tok2"

theorem C4_token_cache_policy_witness :
    (generateDeveloperToken cacheEx cfgEx 1200 60 100 (.ok "key") encEx
        = (.ok "tok", cacheEx) ∧
      generateDeveloperToken
          (generateDeveloperToken cacheEx cfgEx 1200 60 100 (.ok "key") encEx).2
          cfgEx 1200 60 200 (.ok "key") encEx = (.ok "tok", cacheEx)) ∧
    ((generateDeveloperToken cacheEx cfgEx 1200 60 950 (.ok "key") encEx).1
        = .ok "tok2" ∧
      (generateDeveloperToken cacheEx cfgEx 1200 60 950 (.ok "key") encEx).2
          (cacheKey cfgEx) = some ("tok2", 950 + (1200 : ℚ))) ∧
    (∃ e, (generateDeveloperToken cacheEx cfgEx 1200 60 100 (.ok "key") encEx).2
        (cacheKey cfgEx) = some ("tok", e) ∧ (100 : ℚ) < e) :=
  ⟨(C4_token_cache_policy cfgEx cacheEx 1200 60).1 "tok" 1000 100 200 (.ok "key")
      (.ok "key") encEx encEx (by simp [cacheEx]) (by norm_num) (by norm_num),
   (C4_token_cache_policy cfgEx cacheEx 1200 60).2.1 "tok" "tok2" 1000 (950 + (1200 : ℚ))
      950 (.ok "key") encEx (by simp [cacheEx]) (by norm_num)
      (by simp [mintDeveloperToken, MAX_TOKEN_TTL_SECONDS, encEx]),
   (C4_token_cache_policy cfgEx cacheEx 1200 60).2.2 100 (.ok "key") encEx "tok"
      (by norm_num)
      (by rw [generateDeveloperToken_hit cacheEx cfgEx 1200 60 100 (.ok "key") encEx
            "tok" 1000 (by simp [cacheEx]) (by norm_num)])⟩

/-- C10: whenever `_mint_developer_token` fails with a classified error, a
`generate_developer_token` call leaves the token cache exactly as it was —
no entry added, removed or replaced — and, when no entry existed for the
configuration's key, the call propagates that same error. -/
theorem C10_failed_mint_preserves_cache (cache : TokenCache)
    (config : MusicKitConfig) (ttl leeway : ℤ) (now : ℚ)
    (readKey : Except ToolErr String)
    (encode : Claims → JwtHeader → String → EncodeOutcome) (e : ToolErr)
    (hm : mintDeveloperToken config ttl now readKey encode = .error e) :
    (generateDeveloperToken cache config ttl leeway now readKey encode).2 = cache ∧
    (cache (cacheKey config) = Option.none →
      generateDeveloperToken cache config ttl leeway now readKey encode
        = (.error e, cache)) := by
  rcases hcache : cache (cacheKey config) with _ | ⟨tok, exp⟩
  · constructor
    · simp [generateDeveloperToken, hcache, hm]
    · intro _
      simp [generateDeveloperToken, hcache, hm]
  · constructor
    · by_cases hfresh : exp - (leeway : ℚ) > now
      · simp [generateDeveloperToken, hcache, hfresh]
      · simp [generateDeveloperToken, hcache, hfresh, hm]
    · intro habs
      simp [hcache] at habs

theorem C10_failed_mint_preserves_cache_witness :
    (generateDeveloperToken (fun _ => Option.none) ⟨"T", "K", "/p", "us"⟩ 0 60 100
        (.ok "key") (fun _ _ _ => .ok "tok")).2 = (fun _ => Option.none) ∧
    ((fun (_ : String) => (Option.none : Option (String × ℚ))) (cacheKey ⟨"T", "K", "/p", "us"⟩)
        = Option.none →
      generateDeveloperToken (fun _ => Option.none) ⟨"T", "K", "/p", "us"⟩ 0 60 100
          (.ok "key") (fun _ _ _ => .ok "tok")
        = (.error invalidTokenTtlError, fun _ => Option.none)) :=
  C10_failed_mint_preserves_cache (fun _ => Option.none) ⟨"T", "K", "/p", "us"⟩ 0 60 100
    (.ok "key") (fun _ _ _ => .ok "tok") invalidTokenTtlError (by rfl)

/-- C7: for every well-formed single-byte-length DER encoding of an
ECDSA `(R, S)` pair whose components, after stripping leading zero bytes,
fit in 32 bytes — including components carrying a DER leading zero byte
and components shorter than 32 bytes — `_der_to_raw` returns exactly the
64-byte concatenation of R and S, each stripped of leading zero bytes and
left-zero-padded to 32 bytes. -/
theorem C7_der_to_raw_roundtrip (r s : List Nat)
    (hr : 1 ≤ r.length) (hs : 1 ≤ s.length)
    (hL : 4 + r.length + s.length ≤ 255)
    (_hbr : ∀ b ∈ r, b < 256) (_hbs : ∀ b ∈ s, b < 256)
    (hr32 : (lstripZero r).length ≤ 32) (hs32 : (lstripZero s).length ≤ 32) :
    derToRaw (derEncode r s) = .ok (rjust32 (lstripZero r) ++ rjust32 (lstripZero s)) ∧
    (rjust32 (lstripZero r) ++ rjust32 (lstripZero s)).length = 64 := by
  have hsig : derEncode r s
      = (0x30 :: (4 + r.length + s.length) :: 0x02 :: r.length :: r)
        ++ (0x02 :: s.length :: s) := by
    simp [derEncode]
  have hlen : (derEncode r s).length = 6 + r.length + s.length := by
    simp [derEncode]
    omega
  have hguard : ¬((derEncode r s).length < 8 ∨ (derEncode r s)[0]? ≠ some 0x30) := by
    rw [not_or]
    refine ⟨?_, ?_⟩
    · rw [hlen]
      omega
    · simp [derEncode]
  have htrunc : derTruncate (derEncode r s) = derEncode r s := by
    have hgetD : (derEncode r s).getD 1 0 = 4 + r.length + s.length := rfl
    simp only [derTruncate, hgetD, hlen]
    rw [if_neg (by omega)]
  have hget2 : (derEncode r s)[2]? = some 0x02 := rfl
  have hget3 : (derEncode r s)[3]? = some r.length := by simp [derEncode]
  have hdrop4 : (derEncode r s).drop 4 = r ++ 0x02 :: s.length :: s := rfl
  have hrslice : ((derEncode r s).take (4 + r.length)).drop 4 = r := by
    rw [List.drop_take, hdrop4]
    have h4 : 4 + r.length - 4 = r.length := by omega
    rw [h4]
    exact List.take_left' rfl
  have hfront : (0x30 :: (4 + r.length + s.length) :: 0x02 :: r.length :: r).length
      = 4 + r.length := by
    simp
    omega
  have hgetS : (derEncode r s)[2 + 2 + r.length]? = some 0x02 := by
    rw [hsig, List.getElem?_append_right (by simp only [hfront]; omega), hfront]
    have h0 : 2 + 2 + r.length - (4 + r.length) = 0 := by omega
    rw [h0]
    simp
  have hgetSl : (derEncode r s)[2 + 2 + r.length + 1]? = some s.length := by
    rw [hsig, List.getElem?_append_right (by simp only [hfront]; omega), hfront]
    have h1 : 2 + 2 + r.length + 1 - (4 + r.length) = 1 := by omega
    rw [h1]
    simp
  have hsig2 : derEncode r s
      = (0x30 :: (4 + r.length + s.length) :: 0x02 :: r.length :: (r ++ [0x02, s.length]))
        ++ s := by
    simp [derEncode]
  have hfront2 : (0x30 :: (4 + r.length + s.length) :: 0x02 :: r.length
      :: (r ++ [0x02, s.length])).length = 2 + 2 + r.length + 2 := by
    simp
    omega
  have hsslice : ((derEncode r s).take (2 + 2 + r.length + 2 + s.length)).drop
      (2 + 2 + r.length + 2) = s := by
    have htake : (derEncode r s).take (2 + 2 + r.length + 2 + s.length) = derEncode r s :=
      List.take_of_length_le (by rw [hlen]; omega)
    rw [htake, hsig2]
    exact List.drop_left' hfront2
  have hlenR : (rjust32 (lstripZero r)).length = 32 := by
    simp only [rjust32, List.length_append, List.length_replicate]
    omega
  have hlenS : (rjust32 (lstripZero s)).length = 32 := by
    simp only [rjust32, List.length_append, List.length_replicate]
    omega
  constructor
  · simp only [derToRaw]
    rw [if_neg hguard]
    simp only [htrunc, hget2, hget3, hgetS, hgetSl, hrslice, hsslice]
    simp
  · rw [List.length_append, hlenR, hlenS]

theorem C7_der_to_raw_roundtrip_witness :
    (derToRaw (derEncode [0, 171] [1])
        = .ok (rjust32 (lstripZero [0, 171]) ++ rjust32 (lstripZero [1])) ∧
      (rjust32 (lstripZero [0, 171]) ++ rjust32 (lstripZero [1])).length = 64) :=
  C7_der_to_raw_roundtrip [0, 171] [1] (by decide) (by decide) (by decide)
    (by decide) (by decide) (by decide) (by decide)

/-- C3 counterexample: the input `30 06 02 01 AA 02 05 BB` is malformed DER
— the S component declares length 5 but only one byte is present — yet
`_der_to_raw` does not fail with the classified invalid-signature error: the
Python slice silently truncates and the function returns a 64-byte
signature built from `AA` and `BB`. -/
theorem C3_der_counterexample :
    derToRaw [0x30, 0x06, 0x02, 0x01, 0xAA, 0x02, 0x05, 0xBB]
        = .ok (rjust32 [0xAA] ++ rjust32 [0xBB]) ∧
    ∀ e, derToRaw [0x30, 0x06, 0x02, 0x01, 0xAA, 0x02, 0x05, 0xBB] ≠ .error e := by
  refine ⟨rfl, ?_⟩
  intro e h
  rw [show derToRaw [0x30, 0x06, 0x02, 0x01, 0xAA, 0x02, 0x05, 0xBB]
      = .ok (rjust32 [0xAA] ++ rjust32 [0xBB]) from rfl] at h
  exact Except.noConfusion h

/-- C3 (amended): the malformed-DER cases that `_der_to_raw`'s guards
actually check fail with the classified `invalid_signature` error: an input
shorter than 8 bytes or lacking the leading `0x30` SEQUENCE tag, and an
input whose (truncated) buffer carries an in-bounds byte other than `0x02`
at the expected R- or S-INTEGER tag position.  When an expected tag or
length position lies beyond the end of the (truncated) buffer, the function
fails with an unclassified `IndexError` instead; and a declared component
length inconsistent with the bytes actually present is not itself rejected
(the slice silently truncates; see the counterexample). -/
theorem C3_der_error_classification (sig : List Nat) :
    (sig.length < 8 ∨ sig[0]? ≠ some 0x30 →
      derToRaw sig = .error (.toolError invalidSignatureEncodingError)) ∧
    (∀ tagR, ¬(sig.length < 8 ∨ sig[0]? ≠ some 0x30) →
      (derTruncate sig)[2]? = some tagR → tagR ≠ 0x02 →
      derToRaw sig = .error (.toolError missingRComponentError)) ∧
    (¬(sig.length < 8 ∨ sig[0]? ≠ some 0x30) →
      (derTruncate sig)[2]? = Option.none →
      derToRaw sig = .error .indexError) ∧
    (¬(sig.length < 8 ∨ sig[0]? ≠ some 0x30) →
      (derTruncate sig)[2]? = some 0x02 →
      (derTruncate sig)[3]? = Option.none →
      derToRaw sig = .error .indexError) ∧
    (∀ r_len tagS, ¬(sig.length < 8 ∨ sig[0]? ≠ some 0x30) →
      (derTruncate sig)[2]? = some 0x02 →
      (derTruncate sig)[3]? = some r_len →
      (derTruncate sig)[2 + 2 + r_len]? = some tagS → tagS ≠ 0x02 →
      derToRaw sig = .error (.toolError missingSComponentError)) ∧
    (∀ r_len, ¬(sig.length < 8 ∨ sig[0]? ≠ some 0x30) →
      (derTruncate sig)[2]? = some 0x02 →
      (derTruncate sig)[3]? = some r_len →
      (derTruncate sig)[2 + 2 + r_len]? = Option.none →
      derToRaw sig = .error .indexError) := by
  refine ⟨?_, ?_, ?_, ?_, ?_, ?_⟩
  · intro h
    simp only [derToRaw]
    rw [if_pos h]
  · intro tagR hg h2 htag
    simp only [derToRaw]
    rw [if_neg hg]
    simp only [h2]
    rw [if_pos htag]
  · intro hg h2
    simp only [derToRaw]
    rw [if_neg hg]
    simp only [h2]
  · intro hg h2 h3
    simp only [derToRaw]
    rw [if_neg hg]
    simp only [h2, h3]
    simp
  · intro r_len tagS hg h2 h3 hS htag
    simp only [derToRaw]
    rw [if_neg hg]
    simp only [h2, h3, hS]
    simp [htag]
  · intro r_len hg h2 h3 hS
    simp only [derToRaw]
    rw [if_neg hg]
    simp only [h2, h3, hS]
    simp

theorem C3_der_error_classification_witness :
    derToRaw [0x31, 0, 0, 0, 0, 0, 0, 0]
        = .error (.toolError invalidSignatureEncodingError) ∧
    derToRaw [0x30, 6, 0x03, 1, 0xAA, 0x02, 1, 0xBB]
        = .error (.toolError missingRComponentError) ∧
    derToRaw [0x30, 0, 9, 9, 9, 9, 9, 9] = .error .indexError ∧
    derToRaw [0x30, 1, 0x02, 9, 9, 9, 9, 9] = .error .indexError ∧
    derToRaw [0x30, 6, 0x02, 1, 0xAA, 0x03, 1, 0xBB]
        = .error (.toolError missingSComponentError) ∧
    derToRaw [0x30, 6, 0x02, 4, 0xAA, 0xBB, 0xCC, 0xDD] = .error .indexError :=
  ⟨(C3_der_error_classification [0x31, 0, 0, 0, 0, 0, 0, 0]).1 (by decide),
   (C3_der_error_classification [0x30, 6, 0x03, 1, 0xAA, 0x02, 1, 0xBB]).2.1
      0x03 (by decide) (by decide) (by decide),
   (C3_der_error_classification [0x30, 0, 9, 9, 9, 9, 9, 9]).2.2.1
      (by decide) (by decide),
   (C3_der_error_classification [0x30, 1, 0x02, 9, 9, 9, 9, 9]).2.2.2.1
      (by decide) (by decide) (by decide),
   (C3_der_error_classification [0x30, 6, 0x02, 1, 0xAA, 0x03, 1, 0xBB]).2.2.2.2.1
      1 0x03 (by decide) (by decide) (by decide) (by decide) (by decide),
   (C3_der_error_classification [0x30, 6, 0x02, 4, 0xAA, 0xBB, 0xCC, 0xDD]).2.2.2.2.2
      4 (by decide) (by decide) (by decide) (by decide)⟩
